import Mathlib

/-!
Verification of the Blueprint Graph event-ingestion core.

This file gives a shallow embedding of the ingestion paths of the
repository (the Beam pipeline in src/pipelines/ingest.py, the queue
consumer in src/kafka/consumer.py, the direct event-creation endpoint in
src/api/main.py, and the format mappers in src/schemas/ocsf_schema.py)
and proves or refutes the frozen claims about them.

Python dictionaries are modelled as association lists of string keys and
JSON-like values; the Neo4j graph store is modelled as a list of nodes
and relationships with an explicit id counter, and each fixed Cypher
statement appearing in the source is embedded as a Lean function on that
state.
-/

namespace BlueprintGraph

mutual
/-- A JSON-like value: the payloads handled by the ingestion code are
parsed JSON, so every event, fragment and property value is one of
these. -/
inductive Value where
| vNull
| vBool (b : Bool)
| vInt (n : Int)
| vStr (s : String)
| vArr (vs : ValueList)
| vObj (kvs : Obj)
deriving Repr, DecidableEq

/-- A list of JSON values (a JSON array). -/
inductive ValueList where
| nil
| cons (v : Value) (vs : ValueList)
deriving Repr, DecidableEq

/-- A JSON object / Python dict: an ordered association list from string
keys to values. Python dicts have unique keys; lookup takes the first
binding. -/
inductive Obj where
| nil
| cons (k : String) (v : Value) (kvs : Obj)
deriving Repr, DecidableEq
end

/-- Build an object from a Lean list of key-value pairs. -/
def Obj.ofList : List (String × Value) → Obj
| [] => .nil
| (k, v) :: rest => .cons k v (Obj.ofList rest)

/-- Dictionary lookup: dict.get(key) in Python, returning None when the
key is absent. -/
def Obj.get : Obj → String → Option Value
| .nil, _ => none
| .cons k v rest, key => if k = key then some v else rest.get key

/-- Dictionary lookup with a default: dict.get(key, default) in Python. -/
def Obj.getD (o : Obj) (key : String) (d : Value) : Value :=
  (o.get key).getD d

/-- Key membership: the Python expression key in dict. -/
def Obj.hasKey (o : Obj) (key : String) : Bool :=
  (o.get key).isSome

/-- The dict comprehension used for entity properties in all three write
sites: keep every item whose key is neither id nor type. -/
def Obj.withoutIdType : Obj → Obj
| .nil => .nil
| .cons k v rest =>
  if k = "id" || k = "type" then rest.withoutIdType
  else .cons k v (rest.withoutIdType)

/-- Whether a value is JSON null (Python None). -/
def Value.isNull : Value → Bool
| .vNull => true
| _ => false

/-- Drop null-valued entries. Neo4j stores no property for a null-valued
parameter, both in a CREATE property map and in a SET += map, so property
maps sent to the store are filtered through this. -/
def Obj.dropNull : Obj → Obj
| .nil => .nil
| .cons k v rest =>
  if v.isNull then rest.dropNull else .cons k v (rest.dropNull)

mutual
/-- Model of json.dumps with its default separators: the serialization the
source feeds to the hash fallback of the identity key and stores in the
metadata column. String escaping is not modelled; no key or value in the
claims needs it. -/
def dumps : Value → String
| .vNull => "null"
| .vBool b => cond b "true" "false"
| .vInt n => toString n
| .vStr s => "\x22" ++ s ++ "\x22"
| .vArr vs => "[" ++ dumpsList vs ++ "]"
| .vObj kvs => "\x7b" ++ dumpsObj kvs ++ "\x7d"

/-- Comma-separated serialization of a JSON array body. -/
def dumpsList : ValueList → String
| .nil => ""
| .cons v .nil => dumps v
| .cons v rest => dumps v ++ ", " ++ dumpsList rest

/-- Comma-separated serialization of a JSON object body. -/
def dumpsObj : Obj → String
| .nil => ""
| .cons k v .nil => "\x22" ++ k ++ "\x22: " ++ dumps v
| .cons k v rest => "\x22" ++ k ++ "\x22: " ++ dumps v ++ ", " ++ dumpsObj rest
end

/-- Model of the Python builtin str() as used in f-string query
interpolation and in str(hash(...)). For a string value it is the string
itself, which is the only case the source exercises with well-formed
input; other values are rendered through the serialization. -/
def pyStr : Value → String
| .vStr s => s
| v => dumps v

/-- An order-dependent fold of the characters of a string into a natural
number, the string-dependent part of the hash model. -/
def strFold (s : String) : Nat :=
  s.data.foldl (fun h c => h * 31 + c.toNat) 0

/-- Model of the CPython builtin hash on str values. CPython salts string
hashing with a per-process value (PYTHONHASHSEED): the result is a pure
function of the salt and the string, 64 bits wide, and processes started
with different salts hash the same string differently. The exact mixing
function (siphash) is not reproduced; the model keeps the properties the
claims depend on: determinism given a fixed salt, dependence on the salt,
and reduction modulo 2 to the 64. -/
def pyHashStr (salt : Nat) (s : String) : Nat :=
  (salt + strFold s) % (2 ^ 64)

/-- The identity-key computation shared by all three write sites
(consumer.py line 174, ingest.py lines 198, 218 and 238, api/main.py):
the supplied id field verbatim when present, otherwise
str(hash(json.dumps(fragment))). -/
def resolveIdentityKey (salt : Nat) (frag : Obj) : Value :=
  frag.getD "id" (.vStr (toString (pyHashStr salt (dumps (.vObj frag)))))

/-- A node of the property graph: its internal id (the value id(n) returns
in Cypher), its label, and its property map. -/
structure GNode where
  nid : Nat
  label : String
  props : Obj
deriving Repr, DecidableEq

/-- A relationship of the property graph. -/
structure GRel where
  rtype : String
  startId : Nat
  endId : Nat
deriving Repr, DecidableEq

/-- The graph store state: nodes, relationships, and the next free
internal node id. -/
structure Graph where
  nodes : List GNode
  rels : List GRel
  nextId : Nat
deriving Repr, DecidableEq

/-- The empty graph. -/
def Graph.empty : Graph := ⟨[], [], 0⟩

/-- The predicate the entity MERGE pattern matches on: same label and same
value of the id property. -/
def entityMatch (label : String) (idVal : Value) (n : GNode) : Bool :=
  n.label == label && decide (n.props.get "id" = some idVal)

/-- The node the entity MERGE pattern finds, if any. -/
def Graph.findEntity (g : Graph) (label : String) (idVal : Value) : Option GNode :=
  g.nodes.find? (entityMatch label idVal)

/-- How many nodes carry a given label and id property, the count the
merge-by-identity invariant speaks about. -/
def countEntity (g : Graph) (label : String) (idVal : Value) : Nat :=
  (g.nodes.filter (entityMatch label idVal)).length

/-- How many nodes carry a given label. -/
def countLabel (g : Graph) (label : String) : Nat :=
  (g.nodes.filter (fun n => n.label == label)).length

/-- Whether a node with the given internal id and label exists: the MATCH
on the event node inside the entity statements. -/
def Graph.hasNode (g : Graph) (nid : Nat) (label : String) : Bool :=
  g.nodes.any (fun n => n.nid == nid && n.label == label)

/-- Embeds the event-creation statement shared by all write sites:
CREATE one node labelled Event carrying the given property map and return
its internal id. The create is unconditional; nothing is matched or
deduplicated. Null-valued parameters are not stored as properties. -/
def createEventNode (g : Graph) (props : Obj) : Graph × Nat :=
  (⟨g.nodes ++ [⟨g.nextId, "Event", props.dropNull⟩], g.rels, g.nextId + 1⟩, g.nextId)

/-- Embeds the entity statement used at every write site: MERGE a node by
label and id property, with ON CREATE SET adding the remaining properties
only when the node is created (a matched node keeps its properties
untouched, since the statement has no ON MATCH SET); then MATCH the event
node by internal id and CREATE the typed relationship, oriented
entity-to-event or event-to-entity. The relationship is created only when
the event MATCH succeeds. -/
def mergeEntityAndLink (g : Graph) (label : String) (idVal : Value) (props : Obj)
    (eventId : Nat) (rtype : String) (entityToEvent : Bool) : Graph :=
  let merged : Graph × Nat :=
    match g.findEntity label idVal with
    | some n => (g, n.nid)
    | none =>
      (⟨g.nodes ++ [⟨g.nextId, label, .cons "id" idVal props.dropNull⟩],
        g.rels, g.nextId + 1⟩, g.nextId)
  let g1 := merged.1
  let entId := merged.2
  if g1.hasNode eventId "Event" then
    ⟨g1.nodes,
     g1.rels ++ [if entityToEvent then ⟨rtype, entId, eventId⟩ else ⟨rtype, eventId, entId⟩],
     g1.nextId⟩
  else g1

/-- Embeds OCSFSchema._map_syslog_severity: the fixed dictionary from the
syslog 0-7 scale to the 0-10 scale, with dict.get defaulting to 5 for any
value that is not one of the eight integer keys. -/
def mapSyslogSeverity : Value → Int
| .vInt n =>
  if n = 0 then 10 else if n = 1 then 9 else if n = 2 then 8 else if n = 3 then 7
  else if n = 4 then 6 else if n = 5 then 5 else if n = 6 then 4 else if n = 7 then 3
  else 5
| _ => 5

/-- Embeds OCSFSchema._map_syslog_to_ocsf: the syslog field mapping,
including the severity remap. The version argument is the configured
schema version the mapper writes into metadata. -/
def mapSyslogToOcsf (version : String) (event : Obj) : Obj :=
  .cons "class_uid" (.vStr "0001")
  (.cons "category_uid" (.vStr "0002")
  (.cons "time" (event.getD "timestamp" .vNull)
  (.cons "severity" (.vInt (mapSyslogSeverity (event.getD "severity" (.vInt 0))))
  (.cons "message" (event.getD "message" (.vStr ""))
  (.cons "metadata" (.vObj
    (.cons "version" (.vStr version)
    (.cons "product" (.vObj
      (.cons "name" (.vStr "Syslog")
      (.cons "vendor_name" (event.getD "hostname" (.vStr "Unknown")) .nil))) .nil)))
   .nil)))))

/-- Embeds OCSFSchema._map_cef_to_ocsf: class and category hardcoded, the
severity field copied verbatim with default 0, vendor and product pulled
from the CEF device fields. -/
def mapCefToOcsf (version : String) (event : Obj) : Obj :=
  .cons "class_uid" (.vStr "0001")
  (.cons "category_uid" (.vStr "0002")
  (.cons "time" (event.getD "deviceReceiptTime" .vNull)
  (.cons "severity" (event.getD "severity" (.vInt 0))
  (.cons "message" (event.getD "message" (.vStr ""))
  (.cons "metadata" (.vObj
    (.cons "version" (.vStr version)
    (.cons "product" (.vObj
      (.cons "name" (event.getD "deviceProduct" (.vStr "Unknown"))
      (.cons "vendor_name" (event.getD "deviceVendor" (.vStr "Unknown")) .nil))) .nil)))
   .nil)))))

/-- Embeds OCSFSchema._map_leef_to_ocsf: class and category hardcoded, the
severity field copied verbatim with default 0, name and vendor pulled from
the LEEF device fields. -/
def mapLeefToOcsf (version : String) (event : Obj) : Obj :=
  .cons "class_uid" (.vStr "0001")
  (.cons "category_uid" (.vStr "0002")
  (.cons "time" (event.getD "devtime" .vNull)
  (.cons "severity" (event.getD "severity" (.vInt 0))
  (.cons "message" (event.getD "message" (.vStr ""))
  (.cons "metadata" (.vObj
    (.cons "version" (.vStr version)
    (.cons "product" (.vObj
      (.cons "name" (event.getD "devname" (.vStr "Unknown"))
      (.cons "vendor_name" (event.getD "devtype" (.vStr "Unknown")) .nil))) .nil)))
   .nil)))))

/-- Embeds OCSFSchema.map_to_ocsf. Dispatch on the declared format; an
unrecognized format logs a warning and returns the event unchanged. The
three format-specific mappers immediately call .get on the event, which
raises on a non-dict value; that exception (none here) is what the
callers catch. -/
def mapToOcsfValue (version : String) (event : Value) (sourceFormat : String) : Option Value :=
  if sourceFormat = "syslog" then
    match event with
    | .vObj o => some (.vObj (mapSyslogToOcsf version o))
    | _ => none
  else if sourceFormat = "cef" then
    match event with
    | .vObj o => some (.vObj (mapCefToOcsf version o))
    | _ => none
  else if sourceFormat = "leef" then
    match event with
    | .vObj o => some (.vObj (mapLeefToOcsf version o))
    | _ => none
  else some event

/-- Embeds DetectSourceFormat.process: classify the shape of an untyped
input, checking the canonical shape first, then CEF, LEEF and syslog
marker fields. A non-dict input matches none of the isinstance guards and
stays unknown. -/
def detectSourceFormat (element : Value) : String :=
  match element with
  | .vObj kvs =>
    if kvs.hasKey "class_uid" && kvs.hasKey "category_uid" then "ocsf"
    else if kvs.hasKey "deviceVendor" || kvs.hasKey "deviceProduct" || kvs.hasKey "deviceVersion" then "cef"
    else if kvs.hasKey "devname" || kvs.hasKey "devtime" || kvs.hasKey "devtype" then "leef"
    else if kvs.hasKey "facility" || kvs.hasKey "severity" || kvs.hasKey "timestamp" || kvs.hasKey "hostname" then "syslog"
    else "unknown"
  | _ => "unknown"

/-- Embeds MapToOCSF.process: pass an already canonical event through
unchanged, otherwise map it; when the mapper raises on a malformed event
the DoFn catches the exception and yields nothing. -/
def mapToOcsfProcess (version : String) (element : Value) (sourceFormat : String) : List Value :=
  if sourceFormat = "ocsf" then [element]
  else
    match mapToOcsfValue version element sourceFormat with
    | some v => [v]
    | none => []

/-- A raw queue payload as seen by ParseEvent and the consumer loop.
json.loads is modelled by its observable outcome: a well-formed payload
carries the value it parses to, a malformed one raises a parse error. -/
inductive RawMessage where
| wellFormed (v : Value)
| malformed (s : String)
deriving Repr, DecidableEq

/-- Embeds ParseEvent.process: yield the parsed event for a well-formed
payload; for a malformed payload the json.loads exception is caught, the
error is logged, and nothing is yielded. -/
def parseEventProcess : RawMessage → List Value
| .wellFormed v => [v]
| .malformed _ => []

/-- The execution context of one ingestion process: the per-process hash
salt of the Python runtime, the configured schema version, and whether
the graph store accepts each of the three entity statements of the
current event (db.execute_query raising when it does not). -/
structure Ctx where
  hashSalt : Nat
  schemaVersion : String
  okSrc : Bool
  okDst : Bool
  okPrincipal : Bool
deriving Repr, DecidableEq

/-- A context in which the store accepts every statement. -/
def Ctx.allOk (salt : Nat) (version : String) : Ctx :=
  ⟨salt, version, true, true, true⟩

/-- One entity write as performed at every write site: build the label
from the type field (with the given default), resolve the identity key,
strip id and type from the stored properties, and run the merge-and-link
statement. Returns none when the write raises: either the fragment is not
a dict (so .get raises before any statement runs) or the store rejects
the statement; in both cases the graph is unchanged. -/
def entityWrite (c : Ctx) (ok : Bool) (g : Graph) (fragVal : Value)
    (defType rtype : String) (entityToEvent : Bool) (eventId : Nat) : Option Graph :=
  match fragVal with
  | .vObj frag =>
    if ok then
      some (mergeEntityAndLink g
        (pyStr (frag.getD "type" (.vStr defType)))
        (resolveIdentityKey c.hashSalt frag)
        frag.withoutIdType eventId rtype entityToEvent)
    else none
  | _ => none

/-- The property map the consumer and the API endpoint build for the event
node: class and category default to the string unknown when absent. -/
def unknownDefaultEventProps (ev : Obj) : Obj :=
  .cons "class_uid" (ev.getD "class_uid" (.vStr "unknown"))
  (.cons "category_uid" (ev.getD "category_uid" (.vStr "unknown"))
  (.cons "time" (ev.getD "time" (.vStr ""))
  (.cons "severity" (ev.getD "severity" (.vInt 0))
  (.cons "message" (ev.getD "message" (.vStr ""))
  (.cons "metadata" (.vStr (dumps (ev.getD "metadata" (.vObj .nil)))) .nil)))))

/-- The property map StoreInGraph.process builds for the event node:
element.get with no default, so class and category are None when absent
(and then, being null parameters, not stored). -/
def pipelineEventProps (ev : Obj) : Obj :=
  .cons "class_uid" (ev.getD "class_uid" .vNull)
  (.cons "category_uid" (ev.getD "category_uid" .vNull)
  (.cons "time" (ev.getD "time" .vNull)
  (.cons "severity" (ev.getD "severity" (.vInt 0))
  (.cons "message" (ev.getD "message" (.vStr ""))
  (.cons "metadata" (.vStr (dumps (ev.getD "metadata" (.vObj .nil)))) .nil)))))

/-- The statement sequence shared verbatim by KafkaConsumer.process_event
(consumer.py lines 134-199) and the direct-database branch of
create_event (api/main.py): create the event node with unknown-defaulted
class and category, then write the src entity (relationship GENERATED,
entity to event) and the dst entity (relationship TARGETS, event to
entity). There is no principal handling at these two sites. All of it
runs inside one try block: an exception on the src write skips the dst
write, and nothing is rolled back. -/
def storeOcsfEventUnknownDefaults (c : Ctx) (g : Graph) (ev : Obj) : Graph :=
  let created := createEventNode g (unknownDefaultEventProps ev)
  let g1 := created.1
  let eventId := created.2
  let afterSrc : Option Graph :=
    match ev.get "src" with
    | some v => entityWrite c c.okSrc g1 v "Unknown" "GENERATED" true eventId
    | none => some g1
  match afterSrc with
  | none => g1
  | some g2 =>
    match ev.get "dst" with
    | some v => (entityWrite c c.okDst g2 v "Unknown" "TARGETS" false eventId).getD g2
    | none => g2

/-- The canonical event KafkaConsumer.process_event extracts from a queue
message: the event field (default empty dict) mapped through map_to_ocsf
unless the declared source_format is ocsf. A non-string source_format
compares unequal to every format name, so the event passes through
unchanged. -/
def kafkaMappedEvent (c : Ctx) (message : Obj) : Option Value :=
  let eventData := message.getD "event" (.vObj .nil)
  match message.getD "source_format" (.vStr "unknown") with
  | .vStr fmt =>
    if fmt = "ocsf" then some eventData
    else mapToOcsfValue c.schemaVersion eventData fmt
  | _ => some eventData

/-- Embeds KafkaConsumer.process_event: map the message to a canonical
event and run the shared store sequence. When the mapped value is not a
dict, the first .get on it raises; the exception is caught at the end of
process_event, leaving the graph unchanged. -/
def kafkaProcessEvent (c : Ctx) (g : Graph) (message : Obj) : Graph :=
  match kafkaMappedEvent c message with
  | some (.vObj o) => storeOcsfEventUnknownDefaults c g o
  | _ => g

/-- Embeds the direct-database branch of the create_event endpoint: the
request body carries a dict event and a declared source format, the event
is mapped unless already canonical, and the same store sequence runs. -/
def apiCreateEvent (c : Ctx) (g : Graph) (eventData : Obj) (sourceFormat : String) : Graph :=
  let mapped : Option Value :=
    if sourceFormat = "ocsf" then some (.vObj eventData)
    else mapToOcsfValue c.schemaVersion (.vObj eventData) sourceFormat
  match mapped with
  | some (.vObj o) => storeOcsfEventUnknownDefaults c g o
  | _ => g

/-- Embeds StoreInGraph._process_entities: write the src, dst and
principal entities in that order, all inside one try block, so an
exception on any write is logged and ends entity processing with the
earlier writes kept; the event node passed in is never rolled back.
The principal default type is User and its relationship is PERFORMED,
oriented entity to event. -/
def processEntities (c : Ctx) (g : Graph) (ev : Obj) (eventId : Nat) : Graph :=
  let afterSrc : Option Graph :=
    match ev.get "src" with
    | some v => entityWrite c c.okSrc g v "Unknown" "GENERATED" true eventId
    | none => some g
  match afterSrc with
  | none => g
  | some g1 =>
    let afterDst : Option Graph :=
      match ev.get "dst" with
      | some v => entityWrite c c.okDst g1 v "Unknown" "TARGETS" false eventId
      | none => some g1
    match afterDst with
    | none => g1
    | some g2 =>
      match ev.get "principal" with
      | some v => (entityWrite c c.okPrincipal g2 v "User" "PERFORMED" true eventId).getD g2
      | none => g2

/-- Embeds StoreInGraph.process: build the event property map with no
defaulting of class and category, create the event node, then process the
entities. A non-dict element raises on the first .get and the exception is
caught, leaving the graph unchanged. -/
def storeInGraphProcess (c : Ctx) (g : Graph) (element : Value) : Graph :=
  match element with
  | .vObj ev =>
    let created := createEventNode g (pipelineEventProps ev)
    processEntities c created.1 ev created.2
  | _ => g

/-- Embeds one iteration of the standalone consumer loop (ingest.py lines
341-345): parse, detect, map, store, each stage feeding every value the
previous one yielded. -/
def runStandaloneStep (c : Ctx) (g : Graph) (msg : RawMessage) : Graph :=
  (parseEventProcess msg).foldl (fun g0 parsed =>
    (mapToOcsfProcess c.schemaVersion parsed (detectSourceFormat parsed)).foldl
      (fun g1 ocsfEvent => storeInGraphProcess c g1 ocsfEvent) g0) g

/-- Shape hypothesis on an event: when the given fragment key is present,
its value is a dict, so the corresponding entity write does not raise on
a .get call. -/
def fragIsObj (ev : Obj) (k : String) : Prop :=
  ∀ v, ev.get k = some v → ∃ o, v = Value.vObj o

/-- Well-formed graph state: every stored node has an internal id below
the id counter. The empty graph is well formed and every operation of the
model preserves this. -/
def Graph.WF (g : Graph) : Prop :=
  ∀ n, n ∈ g.nodes → n.nid < g.nextId

/-! Concrete inputs used by witnesses and counterexamples. -/

/-- A schema version for the concrete runs. -/
def exVersion : String := "1.0.0"

/-- The context of a process with hash salt 0, store accepting all
statements. -/
def ctxA : Ctx := Ctx.allOk 0 exVersion

/-- The context of a second process with hash salt 1. -/
def ctxB : Ctx := Ctx.allOk 1 exVersion

/-- A context in which the store rejects the src entity statement. -/
def ctxSrcFail : Ctx := ⟨0, exVersion, false, true, true⟩

/-- A src fragment with an explicit identity and one property. -/
def fragA : Obj := Obj.ofList [("type", .vStr "IP"), ("id", .vStr "k1"), ("a", .vInt 1)]

/-- A fragment with the same identity as fragA, a conflicting value for
the property a and a new property b. -/
def fragB : Obj := Obj.ofList
  [("type", .vStr "IP"), ("id", .vStr "k1"), ("a", .vInt 2), ("b", .vInt 3)]

/-- The stored property map of the first write of fragA. -/
def propsA : Obj := Obj.ofList [("a", .vInt 1)]

/-- The property map of the second write. -/
def propsB : Obj := Obj.ofList [("a", .vInt 2), ("b", .vInt 3)]

/-- A fragment without an explicit id field. -/
def fragNoId : Obj := Obj.ofList [("type", .vStr "IP"), ("ip", .vStr "10.0.0.1")]

/-- A principal fragment. -/
def fragU : Obj := Obj.ofList [("type", .vStr "User"), ("id", .vStr "u1")]

/-- A canonical event whose src is fragA. -/
def evA : Obj := Obj.ofList
  [("class_uid", .vStr "0001"), ("category_uid", .vStr "0002"), ("src", .vObj fragA)]

/-- A canonical event whose src is fragB. -/
def evB : Obj := Obj.ofList
  [("class_uid", .vStr "0001"), ("category_uid", .vStr "0002"), ("src", .vObj fragB)]

/-- A canonical event whose src has no explicit id. -/
def evNoId : Obj := Obj.ofList
  [("class_uid", .vStr "0001"), ("category_uid", .vStr "0002"), ("src", .vObj fragNoId)]

/-- A canonical event carrying only a principal fragment. -/
def evP : Obj := Obj.ofList
  [("class_uid", .vStr "0001"), ("category_uid", .vStr "0002"), ("principal", .vObj fragU)]

/-- A canonical event with both a src and a dst fragment. -/
def evSD : Obj := Obj.ofList
  [("class_uid", .vStr "0001"),
   ("src", .vObj (Obj.ofList [("type", .vStr "IP"), ("id", .vStr "s1")])),
   ("dst", .vObj (Obj.ofList [("type", .vStr "Host"), ("id", .vStr "h1")]))]

/-- A canonical event that carries neither class_uid nor category_uid. -/
def evNoClass : Obj := Obj.ofList [("message", .vStr "hi")]

/-- A queue message wrapping a canonical event. -/
def wrapOcsf (ev : Obj) : Obj :=
  Obj.ofList [("event", .vObj ev), ("source_format", .vStr "ocsf")]

/-- The queue messages delivering the example events. -/
def msgA : Obj := wrapOcsf evA

def msgB : Obj := wrapOcsf evB

def msgNoId : Obj := wrapOcsf evNoId

def msgP : Obj := wrapOcsf evP

/-- One graph state extends another: every node and relationship is kept
and the id counter does not decrease. All write operations of the core
only ever append. -/
def Graph.Extends (g g' : Graph) : Prop :=
  (∀ n, n ∈ g.nodes → n ∈ g'.nodes) ∧ (∀ r, r ∈ g.rels → r ∈ g'.rels) ∧ g.nextId ≤ g'.nextId

theorem Graph.Extends.refl (g : Graph) : g.Extends g :=
  ⟨fun _ h => h, fun _ h => h, Nat.le_refl _⟩

theorem Graph.Extends.trans {g1 g2 g3 : Graph} (h12 : g1.Extends g2) (h23 : g2.Extends g3) :
    g1.Extends g3 :=
  ⟨fun n h => h23.1 n (h12.1 n h), fun r h => h23.2.1 r (h12.2.1 r h),
   Nat.le_trans h12.2.2 h23.2.2⟩

theorem createEventNode_extends (g : Graph) (props : Obj) :
    g.Extends (createEventNode g props).1 :=
  ⟨fun _ h => List.mem_append_left _ h, fun _ h => h, Nat.le_succ _⟩

theorem createEventNode_mem (g : Graph) (props : Obj) :
    ⟨g.nextId, "Event", props.dropNull⟩ ∈ (createEventNode g props).1.nodes :=
  List.mem_append_right _ (List.mem_singleton.mpr rfl)

theorem createEventNode_nextId (g : Graph) (props : Obj) :
    (createEventNode g props).1.nextId = g.nextId + 1 := rfl

theorem mergeEntityAndLink_extends (g : Graph) (label : String) (idVal : Value) (props : Obj)
    (eid : Nat) (rt : String) (dir : Bool) :
    g.Extends (mergeEntityAndLink g label idVal props eid rt dir) := by
  unfold mergeEntityAndLink
  cases hf : g.findEntity label idVal with
  | some n =>
    simp only
    split
    · exact ⟨fun _ h => h, fun _ h => List.mem_append_left _ h, Nat.le_refl _⟩
    · exact Graph.Extends.refl g
  | none =>
    simp only
    split
    · exact ⟨fun _ h => List.mem_append_left _ h, fun _ h => List.mem_append_left _ h,
        Nat.le_succ _⟩
    · exact ⟨fun _ h => List.mem_append_left _ h, fun _ h => h, Nat.le_succ _⟩

theorem entityWrite_extends {c : Ctx} {ok : Bool} {g : Graph} {v : Value}
    {dt rt : String} {dir : Bool} {eid : Nat} {g' : Graph}
    (h : entityWrite c ok g v dt rt dir eid = some g') : g.Extends g' := by
  cases v <;> simp [entityWrite] at h
  case vObj frag =>
    rcases h with ⟨hok, hg⟩
    subst hg
    exact mergeEntityAndLink_extends ..

theorem processEntities_extends (c : Ctx) (g : Graph) (ev : Obj) (eid : Nat) :
    g.Extends (processEntities c g ev eid) := by
  unfold processEntities
  cases hs : ev.get "src" with
  | some v =>
    simp only
    cases hw : entityWrite c c.okSrc g v "Unknown" "GENERATED" true eid with
    | none => exact Graph.Extends.refl g
    | some g1 =>
      have e1 := entityWrite_extends hw
      simp only
      cases hd : ev.get "dst" with
      | some w =>
        simp only
        cases hw2 : entityWrite c c.okDst g1 w "Unknown" "TARGETS" false eid with
        | none => exact e1
        | some g2 =>
          have e2 := e1.trans (entityWrite_extends hw2)
          simp only
          cases hp : ev.get "principal" with
          | some u =>
            simp only
            cases hw3 : entityWrite c c.okPrincipal g2 u "User" "PERFORMED" true eid with
            | none => exact e2
            | some g3 => exact e2.trans (entityWrite_extends hw3)
          | none => exact e2
      | none =>
        simp only
        cases hp : ev.get "principal" with
        | some u =>
          simp only
          cases hw3 : entityWrite c c.okPrincipal g1 u "User" "PERFORMED" true eid with
          | none => exact e1
          | some g3 => exact e1.trans (entityWrite_extends hw3)
        | none => exact e1
  | none =>
    simp only
    cases hd : ev.get "dst" with
    | some w =>
      simp only
      cases hw2 : entityWrite c c.okDst g w "Unknown" "TARGETS" false eid with
      | none => exact Graph.Extends.refl g
      | some g2 =>
        have e2 := entityWrite_extends hw2
        simp only
        cases hp : ev.get "principal" with
        | some u =>
          simp only
          cases hw3 : entityWrite c c.okPrincipal g2 u "User" "PERFORMED" true eid with
          | none => exact e2
          | some g3 => exact e2.trans (entityWrite_extends hw3)
        | none => exact e2
    | none =>
      simp only
      cases hp : ev.get "principal" with
      | some u =>
        simp only
        cases hw3 : entityWrite c c.okPrincipal g u "User" "PERFORMED" true eid with
        | none => exact Graph.Extends.refl g
        | some g3 => exact entityWrite_extends hw3
      | none => exact Graph.Extends.refl g

theorem storeOcsf_mid_extends (c : Ctx) (g : Graph) (ev : Obj) :
    ((createEventNode g (unknownDefaultEventProps ev)).1).Extends
      (storeOcsfEventUnknownDefaults c g ev) := by
  unfold storeOcsfEventUnknownDefaults
  simp only
  cases hs : ev.get "src" with
  | some v =>
    simp only
    cases hw : entityWrite c c.okSrc (createEventNode g (unknownDefaultEventProps ev)).1
        v "Unknown" "GENERATED" true (createEventNode g (unknownDefaultEventProps ev)).2 with
    | none => exact Graph.Extends.refl _
    | some g2 =>
      have e2 := entityWrite_extends hw
      simp only
      cases hd : ev.get "dst" with
      | some w =>
        simp only
        cases hw2 : entityWrite c c.okDst g2 w "Unknown" "TARGETS" false
            (createEventNode g (unknownDefaultEventProps ev)).2 with
        | none => exact e2
        | some g3 => exact e2.trans (entityWrite_extends hw2)
      | none => exact e2
  | none =>
    simp only
    cases hd : ev.get "dst" with
    | some w =>
      simp only
      cases hw2 : entityWrite c c.okDst (createEventNode g (unknownDefaultEventProps ev)).1
          w "Unknown" "TARGETS" false (createEventNode g (unknownDefaultEventProps ev)).2 with
      | none => exact Graph.Extends.refl _
      | some g3 => exact entityWrite_extends hw2
    | none => exact Graph.Extends.refl _

theorem storeOcsf_event_mem (c : Ctx) (g : Graph) (ev : Obj) :
    (⟨g.nextId, "Event", (unknownDefaultEventProps ev).dropNull⟩ : GNode)
      ∈ (storeOcsfEventUnknownDefaults c g ev).nodes :=
  (storeOcsf_mid_extends c g ev).1 _ (createEventNode_mem g _)

theorem storeOcsf_extends (c : Ctx) (g : Graph) (ev : Obj) :
    g.Extends (storeOcsfEventUnknownDefaults c g ev) :=
  (createEventNode_extends g _).trans (storeOcsf_mid_extends c g ev)

theorem storeOcsf_nextId (c : Ctx) (g : Graph) (ev : Obj) :
    g.nextId + 1 ≤ (storeOcsfEventUnknownDefaults c g ev).nextId := by
  have h := (storeOcsf_mid_extends c g ev).2.2
  rw [createEventNode_nextId] at h
  exact h

theorem storeInGraph_event_mem (c : Ctx) (g : Graph) (ev : Obj) :
    (⟨g.nextId, "Event", (pipelineEventProps ev).dropNull⟩ : GNode)
      ∈ (storeInGraphProcess c g (.vObj ev)).nodes := by
  unfold storeInGraphProcess
  exact (processEntities_extends c _ ev _).1 _ (createEventNode_mem g _)

theorem storeInGraph_extends (c : Ctx) (g : Graph) (ev : Obj) :
    g.Extends (storeInGraphProcess c g (.vObj ev)) := by
  unfold storeInGraphProcess
  exact (createEventNode_extends g _).trans (processEntities_extends c _ ev _)

theorem storeInGraph_nextId (c : Ctx) (g : Graph) (ev : Obj) :
    g.nextId + 1 ≤ (storeInGraphProcess c g (.vObj ev)).nextId := by
  unfold storeInGraphProcess
  have h := (processEntities_extends c (createEventNode g (pipelineEventProps ev)).1 ev
    (createEventNode g (pipelineEventProps ev)).2).2.2
  rw [createEventNode_nextId] at h
  exact h

theorem Obj.hasKey_eq_false_iff (o : Obj) (k : String) :
    o.hasKey k = false ↔ o.get k = none := by
  cases h : o.get k <;> simp [Obj.hasKey, h]

theorem Obj.get_dropNull_none : ∀ {o : Obj} {k : String}, o.get k = none →
    o.dropNull.get k = none
| .nil, _, _ => rfl
| .cons k2 v rest, k, h => by
  by_cases hk : k2 = k
  · subst hk
    simp [Obj.get] at h
  · simp only [Obj.get, hk, if_false, if_neg] at h
    simp only [Obj.dropNull]
    split
    · exact Obj.get_dropNull_none h
    · simp only [Obj.get, hk, if_neg, if_false]
      exact Obj.get_dropNull_none h

theorem entityMatch_newNode (label : String) (idVal : Value) (i : Nat) (p : Obj) :
    entityMatch label idVal ⟨i, label, .cons "id" idVal p⟩ = true := by
  simp [entityMatch, Obj.get]

theorem findEntity_none_iff (g : Graph) (label : String) (idVal : Value) :
    g.findEntity label idVal = none ↔ countEntity g label idVal = 0 := by
  simp [Graph.findEntity, countEntity, List.find?_eq_none, List.length_eq_zero,
    List.filter_eq_nil_iff]

theorem merge_nodes_of_found {g : Graph} {label : String} {idVal : Value} {n : GNode}
    (hf : g.findEntity label idVal = some n) (p : Obj) (eid : Nat) (rt : String) (dir : Bool) :
    (mergeEntityAndLink g label idVal p eid rt dir).nodes = g.nodes ∧
    (mergeEntityAndLink g label idVal p eid rt dir).nextId = g.nextId := by
  unfold mergeEntityAndLink
  simp only [hf]
  split <;> exact ⟨rfl, rfl⟩

theorem merge_nodes_of_absent {g : Graph} {label : String} {idVal : Value}
    (hf : g.findEntity label idVal = none) (p : Obj) (eid : Nat) (rt : String) (dir : Bool) :
    (mergeEntityAndLink g label idVal p eid rt dir).nodes
      = g.nodes ++ [⟨g.nextId, label, .cons "id" idVal p.dropNull⟩] := by
  unfold mergeEntityAndLink
  simp only [hf]
  split <;> rfl

/-- Writing the same identity twice through the shared merge statement,
starting from a graph with no node of that identity: the first write
creates the node with the first property map, the second write matches it
and leaves it untouched. -/
theorem merge_twice {g : Graph} {label : String} {idVal : Value}
    (h : countEntity g label idVal = 0) (p1 p2 : Obj)
    (eid1 eid2 : Nat) (rt1 rt2 : String) (d1 d2 : Bool) :
    let g1 := mergeEntityAndLink g label idVal p1 eid1 rt1 d1
    let g2 := mergeEntityAndLink g1 label idVal p2 eid2 rt2 d2
    g2.findEntity label idVal = some ⟨g.nextId, label, .cons "id" idVal p1.dropNull⟩ ∧
    countEntity g2 label idVal = 1 := by
  intro g1 g2
  have hf : g.findEntity label idVal = none := (findEntity_none_iff g label idVal).mpr h
  have hn1 : g1.nodes = g.nodes ++ [⟨g.nextId, label, .cons "id" idVal p1.dropNull⟩] :=
    merge_nodes_of_absent hf p1 eid1 rt1 d1
  have hfilter : g.nodes.filter (entityMatch label idVal) = [] := by
    have := (findEntity_none_iff g label idVal).mp hf
    simpa [countEntity, List.length_eq_zero] using this
  have hfind1 : g1.findEntity label idVal
      = some ⟨g.nextId, label, .cons "id" idVal p1.dropNull⟩ := by
    have hnone : g.nodes.find? (entityMatch label idVal) = none := hf
    simp [Graph.findEntity, hn1, List.find?_append, hnone, List.find?,
      entityMatch_newNode]
  have hn2 : g2.nodes = g1.nodes := (merge_nodes_of_found hfind1 p2 eid2 rt2 d2).1
  constructor
  · simp only [Graph.findEntity, hn2]
    exact hfind1
  · simp only [countEntity, hn2, hn1, List.filter_append, hfilter,
      List.length_append, List.length_nil]
    simp [entityMatch_newNode]

theorem hasNode_of_mem {g : Graph} {i : Nat} {l : String} {p : Obj}
    (h : (⟨i, l, p⟩ : GNode) ∈ g.nodes) : g.hasNode i l = true := by
  simp only [Graph.hasNode, List.any_eq_true]
  exact ⟨⟨i, l, p⟩, h, by simp⟩

theorem hasNode_mono {g g' : Graph} {i : Nat} {l : String}
    (h : g.hasNode i l = true) (he : g.Extends g') : g'.hasNode i l = true := by
  simp only [Graph.hasNode, List.any_eq_true] at h ⊢
  obtain ⟨n, hn, hp⟩ := h
  exact ⟨n, he.1 n hn, hp⟩

theorem merge_rels_subset (g : Graph) (label : String) (idVal : Value) (p : Obj)
    (eid : Nat) (rt : String) (dir : Bool) :
    ∀ r ∈ (mergeEntityAndLink g label idVal p eid rt dir).rels,
      r ∈ g.rels ∨ r.rtype = rt := by
  intro r hr
  unfold mergeEntityAndLink at hr
  rcases hf : g.findEntity label idVal with _ | n <;> simp only [hf] at hr <;>
    revert hr <;> split <;> intro hr
  · rcases List.mem_append.mp hr with h | h
    · exact Or.inl h
    · right
      rcases List.mem_singleton.mp h with rfl
      split <;> rfl
  · exact Or.inl hr
  · rcases List.mem_append.mp hr with h | h
    · exact Or.inl h
    · right
      rcases List.mem_singleton.mp h with rfl
      split <;> rfl
  · exact Or.inl hr

theorem merge_adds_rel_toEvent {g : Graph} {eid : Nat}
    (h : g.hasNode eid "Event" = true) (label : String) (idVal : Value) (p : Obj)
    (rt : String) :
    ∃ i, (⟨rt, i, eid⟩ : GRel) ∈ (mergeEntityAndLink g label idVal p eid rt true).rels := by
  unfold mergeEntityAndLink
  rcases hf : g.findEntity label idVal with _ | n <;> simp only [hf]
  · have h2 : (Graph.mk (g.nodes ++ [⟨g.nextId, label, .cons "id" idVal p.dropNull⟩])
        g.rels (g.nextId + 1)).hasNode eid "Event" = true :=
      hasNode_mono h ⟨fun _ hm => List.mem_append_left _ hm, fun _ hm => hm, Nat.le_succ _⟩
    simp only [h2, if_true]
    exact ⟨g.nextId, List.mem_append_right _ (List.mem_singleton.mpr rfl)⟩
  · simp only [h, if_true]
    exact ⟨n.nid, List.mem_append_right _ (List.mem_singleton.mpr rfl)⟩

theorem entityWrite_rels {c : Ctx} {ok : Bool} {g : Graph} {v : Value}
    {dt rt : String} {dir : Bool} {eid : Nat} {g' : Graph}
    (h : entityWrite c ok g v dt rt dir eid = some g') :
    ∀ r ∈ g'.rels, r ∈ g.rels ∨ r.rtype = rt := by
  cases v <;> simp [entityWrite] at h
  case vObj frag =>
    rcases h with ⟨hok, hg⟩
    subst hg
    exact merge_rels_subset g _ _ _ eid rt dir

theorem createEventNode_rels (g : Graph) (props : Obj) :
    (createEventNode g props).1.rels = g.rels := rfl

theorem storeOcsf_rels (c : Ctx) (g : Graph) (ev : Obj) :
    ∀ r ∈ (storeOcsfEventUnknownDefaults c g ev).rels,
      r ∈ g.rels ∨ r.rtype = "GENERATED" ∨ r.rtype = "TARGETS" := by
  intro r hr
  unfold storeOcsfEventUnknownDefaults at hr
  simp only at hr
  revert hr
  cases hs : ev.get "src" with
  | some v =>
    simp only
    cases hw : entityWrite c c.okSrc (createEventNode g (unknownDefaultEventProps ev)).1
        v "Unknown" "GENERATED" true (createEventNode g (unknownDefaultEventProps ev)).2 with
    | none =>
      intro hr
      exact Or.inl hr
    | some g2 =>
      have w1 := entityWrite_rels hw
      simp only
      cases hd : ev.get "dst" with
      | some w =>
        simp only
        cases hw2 : entityWrite c c.okDst g2 w "Unknown" "TARGETS" false
            (createEventNode g (unknownDefaultEventProps ev)).2 with
        | none =>
          intro hr
          rcases w1 r hr with h | h
          · exact Or.inl h
          · exact Or.inr (Or.inl h)
        | some g3 =>
          intro hr
          rcases entityWrite_rels hw2 r hr with h | h
          · rcases w1 r h with h2 | h2
            · exact Or.inl h2
            · exact Or.inr (Or.inl h2)
          · exact Or.inr (Or.inr h)
      | none =>
        intro hr
        rcases w1 r hr with h | h
        · exact Or.inl h
        · exact Or.inr (Or.inl h)
  | none =>
    simp only
    cases hd : ev.get "dst" with
    | some w =>
      simp only
      cases hw2 : entityWrite c c.okDst (createEventNode g (unknownDefaultEventProps ev)).1
          w "Unknown" "TARGETS" false (createEventNode g (unknownDefaultEventProps ev)).2 with
      | none =>
        intro hr
        exact Or.inl hr
      | some g3 =>
        intro hr
        rcases entityWrite_rels hw2 r hr with h | h
        · exact Or.inl h
        · exact Or.inr (Or.inr h)
    | none =>
      intro hr
      exact Or.inl hr

theorem kafkaProcessEvent_rels (c : Ctx) (g : Graph) (m : Obj) :
    ∀ r ∈ (kafkaProcessEvent c g m).rels,
      r ∈ g.rels ∨ r.rtype = "GENERATED" ∨ r.rtype = "TARGETS" := by
  intro r hr
  unfold kafkaProcessEvent at hr
  rcases hm : kafkaMappedEvent c m with _ | v
  · rw [hm] at hr
    exact Or.inl hr
  · rw [hm] at hr
    cases v <;> simp only at hr
    case vObj o => exact storeOcsf_rels c g o r hr
    all_goals exact Or.inl hr

theorem processEntities_principal_shape (c : Ctx) (g : Graph) (ev : Obj) (eid : Nat)
    (p : Obj) (hok1 : c.okSrc = true) (hok2 : c.okDst = true) (hok3 : c.okPrincipal = true)
    (hsrc : fragIsObj ev "src") (hdst : fragIsObj ev "dst")
    (hp : ev.get "principal" = some (.vObj p)) :
    ∃ g2, processEntities c g ev eid
        = mergeEntityAndLink g2 (pyStr (p.getD "type" (.vStr "User")))
            (resolveIdentityKey c.hashSalt p) p.withoutIdType eid "PERFORMED" true
      ∧ g.Extends g2 := by
  unfold processEntities
  cases hs : ev.get "src" with
  | some v =>
    obtain ⟨o, rfl⟩ := hsrc v hs
    simp only [entityWrite, hok1, if_true]
    cases hd : ev.get "dst" with
    | some w =>
      obtain ⟨o2, rfl⟩ := hdst w hd
      simp only [entityWrite, hok2, if_true, hp, hok3, Option.getD_some]
      exact ⟨_, rfl, (mergeEntityAndLink_extends ..).trans (mergeEntityAndLink_extends ..)⟩
    | none =>
      simp only [hp, entityWrite, hok3, if_true, Option.getD_some]
      exact ⟨_, rfl, mergeEntityAndLink_extends ..⟩
  | none =>
    simp only
    cases hd : ev.get "dst" with
    | some w =>
      obtain ⟨o2, rfl⟩ := hdst w hd
      simp only [entityWrite, hok2, if_true, hp, hok3, Option.getD_some]
      exact ⟨_, rfl, mergeEntityAndLink_extends ..⟩
    | none =>
      simp only [hp, entityWrite, hok3, if_true, Option.getD_some]
      exact ⟨_, rfl, Graph.Extends.refl g⟩

/-- C7: for every syslog event the mapped severity follows the fixed
lookup table 0 to 10, 1 to 9, 2 to 8, 3 to 7, 4 to 6, 5 to 5, 6 to 4,
7 to 3, and every syslog severity value outside 0 to 7 maps to 5. -/
theorem syslog_severity_remap :
    mapSyslogSeverity (.vInt 0) = 10 ∧ mapSyslogSeverity (.vInt 1) = 9 ∧
    mapSyslogSeverity (.vInt 2) = 8 ∧ mapSyslogSeverity (.vInt 3) = 7 ∧
    mapSyslogSeverity (.vInt 4) = 6 ∧ mapSyslogSeverity (.vInt 5) = 5 ∧
    mapSyslogSeverity (.vInt 6) = 4 ∧ mapSyslogSeverity (.vInt 7) = 3 ∧
    ∀ n : Int, (n < 0 ∨ 7 < n) → mapSyslogSeverity (.vInt n) = 5 := by
  refine ⟨rfl, rfl, rfl, rfl, rfl, rfl, rfl, rfl, ?_⟩
  intro n hn
  have h0 : n ≠ 0 := by omega
  have h1 : n ≠ 1 := by omega
  have h2 : n ≠ 2 := by omega
  have h3 : n ≠ 3 := by omega
  have h4 : n ≠ 4 := by omega
  have h5 : n ≠ 5 := by omega
  have h6 : n ≠ 6 := by omega
  have h7 : n ≠ 7 := by omega
  simp [mapSyslogSeverity, h0, h1, h2, h3, h4, h5, h6, h7]

/-- Witness for C7: the out-of-range branch evaluated at 9 and at -1. -/
theorem syslog_severity_remap_witness :
    mapSyslogSeverity (.vInt 9) = 5 ∧ mapSyslogSeverity (.vInt (-1)) = 5 :=
  ⟨syslog_severity_remap.2.2.2.2.2.2.2.2 9 (Or.inr (by decide)),
   syslog_severity_remap.2.2.2.2.2.2.2.2 (-1) (Or.inl (by decide))⟩

/-- C8: format detection checks the canonical shape first: a dict that
carries both canonical class and category identifiers and CEF-like
vendor or product fields is classified ocsf, not cef. -/
theorem detect_canonical_first (kvs : Obj)
    (h1 : kvs.hasKey "class_uid" = true) (h2 : kvs.hasKey "category_uid" = true)
    (_h3 : kvs.hasKey "deviceVendor" = true ∨ kvs.hasKey "deviceProduct" = true ∨
      kvs.hasKey "deviceVersion" = true) :
    detectSourceFormat (.vObj kvs) = "ocsf" := by
  simp [detectSourceFormat, h1, h2]

/-- Witness for C8: a concrete dict carrying class and category
identifiers together with a CEF vendor field. -/
theorem detect_canonical_first_witness :
    detectSourceFormat (.vObj (Obj.ofList
      [("class_uid", .vStr "0001"), ("category_uid", .vStr "0002"),
       ("deviceVendor", .vStr "Acme"), ("deviceProduct", .vStr "FW")])) = "ocsf" :=
  detect_canonical_first _ (by decide) (by decide) (Or.inl (by decide))

/-- C9: the CEF and LEEF mappers copy the raw severity field verbatim
into the canonical event, defaulting to 0 when absent, with no remapping,
and both hardcode class_uid 0001 and category_uid 0002 regardless of
input. -/
theorem cef_leef_verbatim (version : String) (e : Obj) :
    (mapCefToOcsf version e).get "severity" = some (e.getD "severity" (.vInt 0)) ∧
    (mapLeefToOcsf version e).get "severity" = some (e.getD "severity" (.vInt 0)) ∧
    (mapCefToOcsf version e).get "class_uid" = some (.vStr "0001") ∧
    (mapCefToOcsf version e).get "category_uid" = some (.vStr "0002") ∧
    (mapLeefToOcsf version e).get "class_uid" = some (.vStr "0001") ∧
    (mapLeefToOcsf version e).get "category_uid" = some (.vStr "0002") :=
  ⟨rfl, rfl, rfl, rfl, rfl, rfl⟩

/-- C10: a queue payload that is not parsable JSON is silently dropped:
the parse stage yields no event and one full loop iteration of the
standalone consumer leaves the graph unchanged, with no exception
escaping (the model functions are total). -/
theorem malformed_payload_dropped (c : Ctx) (g : Graph) (s : String) :
    parseEventProcess (.malformed s) = [] ∧
    runStandaloneStep c g (.malformed s) = g :=
  ⟨rfl, rfl⟩

/-- C1 (amended): two fragment writes with the same label and identity
key through the shared merge statement, starting from a graph without
that identity, end with exactly one node for the pair; but because the
statement sets properties with ON CREATE SET only, the node keeps the
first write props unchanged: the later write neither overwrites
conflicting keys nor adds new ones. Every ingestion path issues this same
statement through entityWrite. -/
theorem entity_merge_first_write_wins (g : Graph) (label : String) (idVal : Value)
    (p1 p2 : Obj) (eid1 eid2 : Nat) (rt1 rt2 : String) (d1 d2 : Bool)
    (h : countEntity g label idVal = 0) :
    countEntity (mergeEntityAndLink (mergeEntityAndLink g label idVal p1 eid1 rt1 d1)
      label idVal p2 eid2 rt2 d2) label idVal = 1 ∧
    (mergeEntityAndLink (mergeEntityAndLink g label idVal p1 eid1 rt1 d1)
      label idVal p2 eid2 rt2 d2).findEntity label idVal
      = some ⟨g.nextId, label, .cons "id" idVal p1.dropNull⟩ := by
  have hm := merge_twice h p1 p2 eid1 eid2 rt1 rt2 d1 d2
  exact ⟨hm.2, hm.1⟩

/-- Witness for C1: the two example fragments with identity k1 written
into the empty graph. -/
theorem entity_merge_first_write_wins_witness :
    countEntity (mergeEntityAndLink (mergeEntityAndLink Graph.empty "IP" (.vStr "k1")
      propsA 0 "GENERATED" true) "IP" (.vStr "k1") propsB 1 "GENERATED" true)
      "IP" (.vStr "k1") = 1 ∧
    (mergeEntityAndLink (mergeEntityAndLink Graph.empty "IP" (.vStr "k1")
      propsA 0 "GENERATED" true) "IP" (.vStr "k1") propsB 1 "GENERATED" true).findEntity
      "IP" (.vStr "k1")
      = some ⟨Graph.empty.nextId, "IP", .cons "id" (.vStr "k1") propsA.dropNull⟩ :=
  entity_merge_first_write_wins Graph.empty "IP" (.vStr "k1") propsA propsB 0 1
    "GENERATED" "GENERATED" true true (by decide)

/-- Counterexample for C1: after ingesting the same identity twice on the
queue-consumer path, first with property a equal 1, then with a equal 2
and a new property b, the single merged node still carries a equal 1 and
no b at all, against the claimed union with last write winning. -/
theorem entity_merge_lww_counterexample :
    countEntity (kafkaProcessEvent ctxA (kafkaProcessEvent ctxA Graph.empty msgA) msgB)
      "IP" (.vStr "k1") = 1 ∧
    ((kafkaProcessEvent ctxA (kafkaProcessEvent ctxA Graph.empty msgA) msgB).findEntity
      "IP" (.vStr "k1")).map (fun n => (n.props.get "a", n.props.get "b"))
      = some (some (.vInt 1), none) := by
  decide

/-- C2 (amended): when the source supplies neither class_uid nor
category_uid, the queue-consumer path and the direct API path store the
event node with both fields present as the string unknown; the Beam
pipeline path passes None instead, so its event node is stored with no
class_uid or category_uid property at all. -/
theorem class_category_defaults (c : Ctx) (g : Graph) (ev : Obj)
    (h1 : ev.hasKey "class_uid" = false) (h2 : ev.hasKey "category_uid" = false) :
    ((unknownDefaultEventProps ev).dropNull).get "class_uid" = some (.vStr "unknown") ∧
    ((unknownDefaultEventProps ev).dropNull).get "category_uid" = some (.vStr "unknown") ∧
    (⟨g.nextId, "Event", (unknownDefaultEventProps ev).dropNull⟩ : GNode)
      ∈ (kafkaProcessEvent c g (wrapOcsf ev)).nodes ∧
    (⟨g.nextId, "Event", (unknownDefaultEventProps ev).dropNull⟩ : GNode)
      ∈ (apiCreateEvent c g ev "ocsf").nodes ∧
    ((pipelineEventProps ev).dropNull).hasKey "class_uid" = false ∧
    ((pipelineEventProps ev).dropNull).hasKey "category_uid" = false ∧
    (⟨g.nextId, "Event", (pipelineEventProps ev).dropNull⟩ : GNode)
      ∈ (storeInGraphProcess c g (.vObj ev)).nodes := by
  have e1 : ev.get "class_uid" = none := (Obj.hasKey_eq_false_iff ev _).mp h1
  have e2 : ev.get "category_uid" = none := (Obj.hasKey_eq_false_iff ev _).mp h2
  refine ⟨?_, ?_, ?_, ?_, ?_, ?_, ?_⟩
  · simp [unknownDefaultEventProps, Obj.getD, e1, Obj.dropNull, Value.isNull, Obj.get]
  · simp [unknownDefaultEventProps, Obj.getD, e1, e2, Obj.dropNull, Value.isNull, Obj.get]
  · have hk : kafkaProcessEvent c g (wrapOcsf ev) = storeOcsfEventUnknownDefaults c g ev := rfl
    rw [hk]
    exact storeOcsf_event_mem c g ev
  · exact storeOcsf_event_mem c g ev
  · rw [Obj.hasKey_eq_false_iff]
    have hd : (pipelineEventProps ev).dropNull
        = (Obj.cons "time" (ev.getD "time" .vNull)
          (.cons "severity" (ev.getD "severity" (.vInt 0))
          (.cons "message" (ev.getD "message" (.vStr ""))
          (.cons "metadata" (.vStr (dumps (ev.getD "metadata" (.vObj .nil))))
            .nil)))).dropNull := by
      simp [pipelineEventProps, Obj.getD, e1, e2, Obj.dropNull, Value.isNull]
    rw [hd]
    exact Obj.get_dropNull_none (by simp [Obj.get])
  · rw [Obj.hasKey_eq_false_iff]
    have hd : (pipelineEventProps ev).dropNull
        = (Obj.cons "time" (ev.getD "time" .vNull)
          (.cons "severity" (ev.getD "severity" (.vInt 0))
          (.cons "message" (ev.getD "message" (.vStr ""))
          (.cons "metadata" (.vStr (dumps (ev.getD "metadata" (.vObj .nil))))
            .nil)))).dropNull := by
      simp [pipelineEventProps, Obj.getD, e1, e2, Obj.dropNull, Value.isNull]
    rw [hd]
    exact Obj.get_dropNull_none (by simp [Obj.get])
  · exact storeInGraph_event_mem c g ev

/-- Witness for C2: the event that carries only a message field, stored
through all three paths from the empty graph. -/
theorem class_category_defaults_witness :
    ((unknownDefaultEventProps evNoClass).dropNull).get "class_uid"
      = some (.vStr "unknown") ∧
    ((unknownDefaultEventProps evNoClass).dropNull).get "category_uid"
      = some (.vStr "unknown") ∧
    (⟨Graph.empty.nextId, "Event", (unknownDefaultEventProps evNoClass).dropNull⟩ : GNode)
      ∈ (kafkaProcessEvent ctxA Graph.empty (wrapOcsf evNoClass)).nodes ∧
    (⟨Graph.empty.nextId, "Event", (unknownDefaultEventProps evNoClass).dropNull⟩ : GNode)
      ∈ (apiCreateEvent ctxA Graph.empty evNoClass "ocsf").nodes ∧
    ((pipelineEventProps evNoClass).dropNull).hasKey "class_uid" = false ∧
    ((pipelineEventProps evNoClass).dropNull).hasKey "category_uid" = false ∧
    (⟨Graph.empty.nextId, "Event", (pipelineEventProps evNoClass).dropNull⟩ : GNode)
      ∈ (storeInGraphProcess ctxA Graph.empty (.vObj evNoClass)).nodes :=
  class_category_defaults ctxA Graph.empty evNoClass (by decide) (by decide)

/-- Counterexample for C2: an event with no class or category reaches the
pipeline graph-write end to end on the queue path (it detects as unknown
and passes through) and is stored as an Event node that has no class_uid
and no category_uid property, against the claimed always-present unknown
default. -/
theorem class_category_pipeline_counterexample :
    countLabel (runStandaloneStep ctxA Graph.empty (.wellFormed (.vObj evNoClass)))
      "Event" = 1 ∧
    ((runStandaloneStep ctxA Graph.empty
        (.wellFormed (.vObj evNoClass))).nodes.headD ⟨0, "", .nil⟩).props.hasKey
      "class_uid" = false ∧
    ((runStandaloneStep ctxA Graph.empty
        (.wellFormed (.vObj evNoClass))).nodes.headD ⟨0, "", .nil⟩).props.hasKey
      "category_uid" = false := by
  decide

/-- C3 (amended): the pipeline graph-write creates a PERFORMED
relationship from the principal entity node to the event node, but the
queue-consumer write path handles only src and dst fragments: it never
creates a PERFORMED relationship, so the claim holds on the pipeline path
only. -/
theorem performed_only_on_pipeline :
    (∀ (c : Ctx) (g : Graph) (ev : Obj) (p : Obj),
      c.okSrc = true → c.okDst = true → c.okPrincipal = true →
      fragIsObj ev "src" → fragIsObj ev "dst" →
      ev.get "principal" = some (.vObj p) →
      ∃ i, (⟨"PERFORMED", i, g.nextId⟩ : GRel)
        ∈ (storeInGraphProcess c g (.vObj ev)).rels) ∧
    (∀ (c : Ctx) (g : Graph) (m : Obj) (r : GRel),
      r ∈ (kafkaProcessEvent c g m).rels →
      r ∈ g.rels ∨ r.rtype = "GENERATED" ∨ r.rtype = "TARGETS") := by
  constructor
  · intro c g ev p hok1 hok2 hok3 hsrc hdst hp
    have hst : storeInGraphProcess c g (.vObj ev)
        = processEntities c (createEventNode g (pipelineEventProps ev)).1 ev
            (createEventNode g (pipelineEventProps ev)).2 := rfl
    rw [hst]
    obtain ⟨g2, heq, hext⟩ := processEntities_principal_shape c
      (createEventNode g (pipelineEventProps ev)).1 ev
      (createEventNode g (pipelineEventProps ev)).2 p hok1 hok2 hok3 hsrc hdst hp
    rw [heq]
    have hmem : (⟨g.nextId, "Event", (pipelineEventProps ev).dropNull⟩ : GNode)
        ∈ (createEventNode g (pipelineEventProps ev)).1.nodes :=
      createEventNode_mem g _
    have hev : g2.hasNode g.nextId "Event" = true :=
      hasNode_mono (hasNode_of_mem hmem) hext
    exact merge_adds_rel_toEvent hev _ _ _ _
  · intro c g m r hr
    exact kafkaProcessEvent_rels c g m r hr

/-- Witness for C3: the principal-only event through the pipeline store
step gains a PERFORMED relationship, and the one relationship the
consumer writes for the example src event is a GENERATED one. -/
theorem performed_only_on_pipeline_witness :
    (∃ i, (⟨"PERFORMED", i, Graph.empty.nextId⟩ : GRel)
      ∈ (storeInGraphProcess ctxA Graph.empty (.vObj evP)).rels) ∧
    ((⟨"GENERATED", 1, 0⟩ : GRel) ∈ Graph.empty.rels ∨
      ("GENERATED" : String) = "GENERATED" ∨ ("GENERATED" : String) = "TARGETS") := by
  constructor
  · refine performed_only_on_pipeline.1 ctxA Graph.empty evP fragU rfl rfl rfl ?_ ?_ rfl
    · intro v hv
      rw [show Obj.get evP "src" = none from rfl] at hv
      exact Option.noConfusion hv
    · intro v hv
      rw [show Obj.get evP "dst" = none from rfl] at hv
      exact Option.noConfusion hv
  · exact performed_only_on_pipeline.2 ctxA Graph.empty msgA ⟨"GENERATED", 1, 0⟩
      (by decide)

/-- Counterexample for C3: on the queue-consumer path an event carrying a
principal fragment is processed (one event node is created) yet no
PERFORMED relationship is created at all. -/
theorem performed_kafka_counterexample :
    countLabel (kafkaProcessEvent ctxA Graph.empty msgP) "Event" = 1 ∧
    (kafkaProcessEvent ctxA Graph.empty msgP).rels.filter
      (fun r => r.rtype == "PERFORMED") = [] := by
  decide

/-- C4 (amended): the resolved identity key is the supplied id field
verbatim when present; when absent it is the string form of the salted
hash of the serialized fragment, a pure function of the process hash salt
and the fragment, so within one process identical fragments resolve to
the same key and collapse to one node through the shared merge statement.
Across processes the salt differs and identical fragments can resolve to
different keys; distinct fragments get distinct keys only as far as their
salted 64-bit hashes differ. -/
theorem identity_key_per_process (salt : Nat) (frag : Obj) :
    (∀ v, frag.get "id" = some v → resolveIdentityKey salt frag = v) ∧
    (frag.get "id" = none →
      resolveIdentityKey salt frag
        = .vStr (toString (pyHashStr salt (dumps (.vObj frag))))) ∧
    (∀ (g : Graph) (label : String) (p1 p2 : Obj) (eid1 eid2 : Nat)
      (rt1 rt2 : String) (d1 d2 : Bool),
      countEntity g label (resolveIdentityKey salt frag) = 0 →
      countEntity (mergeEntityAndLink (mergeEntityAndLink g label
        (resolveIdentityKey salt frag) p1 eid1 rt1 d1) label
        (resolveIdentityKey salt frag) p2 eid2 rt2 d2) label
        (resolveIdentityKey salt frag) = 1) := by
  refine ⟨?_, ?_, ?_⟩
  · intro v hv
    simp [resolveIdentityKey, Obj.getD, hv]
  · intro hv
    simp [resolveIdentityKey, Obj.getD, hv]
  · intro g label p1 p2 eid1 eid2 rt1 rt2 d1 d2 h
    exact (merge_twice h p1 p2 eid1 eid2 rt1 rt2 d1 d2).2

/-- Witness for C4: the verbatim branch on the fragment with id k1, the
hash branch on the id-less fragment, and the same-process collapse of the
id-less fragment written twice into the empty graph. -/
theorem identity_key_per_process_witness :
    resolveIdentityKey 0 fragA = .vStr "k1" ∧
    resolveIdentityKey 0 fragNoId
      = .vStr (toString (pyHashStr 0 (dumps (.vObj fragNoId)))) ∧
    countEntity (mergeEntityAndLink (mergeEntityAndLink Graph.empty "IP"
      (resolveIdentityKey 0 fragNoId) fragNoId.withoutIdType 0 "GENERATED" true) "IP"
      (resolveIdentityKey 0 fragNoId) fragNoId.withoutIdType 1 "GENERATED" true) "IP"
      (resolveIdentityKey 0 fragNoId) = 1 :=
  ⟨(identity_key_per_process 0 fragA).1 (.vStr "k1") (by decide),
   (identity_key_per_process 0 fragNoId).2.1 (by decide),
   (identity_key_per_process 0 fragNoId).2.2 Graph.empty "IP"
     fragNoId.withoutIdType fragNoId.withoutIdType 0 1 "GENERATED" "GENERATED"
     true true (by decide)⟩

/-- Counterexample for C4: the same id-less fragment resolves to two
different identity keys under two different process hash salts, and
delivering the same event to two differently salted consumer processes
leaves two IP entity nodes in the shared graph instead of one. -/
theorem identity_key_cross_process_counterexample :
    resolveIdentityKey 0 fragNoId ≠ resolveIdentityKey 1 fragNoId ∧
    countLabel (kafkaProcessEvent ctxB (kafkaProcessEvent ctxA Graph.empty msgNoId)
      msgNoId) "IP" = 2 := by
  decide

theorem entityWrite_fail (c : Ctx) (g : Graph) (v : Value) (dt rt : String)
    (dir : Bool) (eid : Nat) : entityWrite c false g v dt rt dir eid = none := by
  cases v <;> simp [entityWrite]

theorem entityWrite_ok (c : Ctx) (g : Graph) (frag : Obj) (dt rt : String)
    (dir : Bool) (eid : Nat) :
    entityWrite c true g (.vObj frag) dt rt dir eid
      = some (mergeEntityAndLink g (pyStr (frag.getD "type" (.vStr dt)))
          (resolveIdentityKey c.hashSalt frag) frag.withoutIdType eid rt dir) := by
  simp [entityWrite]

/-- C5 (amended): the event node is durable once created, whatever later
fails: it is present in the final graph under any store behaviour. A
failing entity write is caught and does not roll anything back, but
because all entity writes of one event share a single try block, the
remaining fragments of that event are skipped rather than written: when
the src write fails the result is exactly the event node alone, and when
the dst write fails the result is exactly the event node plus the src
write, on the pipeline and queue-consumer paths alike. -/
theorem entity_write_failure_policy :
    (∀ (c : Ctx) (g : Graph) (ev : Obj),
      (⟨g.nextId, "Event", (pipelineEventProps ev).dropNull⟩ : GNode)
        ∈ (storeInGraphProcess c g (.vObj ev)).nodes) ∧
    (∀ (c : Ctx) (g : Graph) (ev : Obj) (v : Value),
      c.okSrc = false → ev.get "src" = some v →
      storeInGraphProcess c g (.vObj ev)
        = (createEventNode g (pipelineEventProps ev)).1) ∧
    (∀ (c : Ctx) (g : Graph) (ev : Obj) (so : Obj) (dv : Value),
      c.okSrc = true → c.okDst = false →
      ev.get "src" = some (.vObj so) → ev.get "dst" = some dv →
      storeInGraphProcess c g (.vObj ev)
        = mergeEntityAndLink (createEventNode g (pipelineEventProps ev)).1
            (pyStr (so.getD "type" (.vStr "Unknown")))
            (resolveIdentityKey c.hashSalt so) so.withoutIdType
            (createEventNode g (pipelineEventProps ev)).2 "GENERATED" true) ∧
    (∀ (c : Ctx) (g : Graph) (m : Obj) (o : Obj) (v : Value),
      kafkaMappedEvent c m = some (.vObj o) → c.okSrc = false →
      o.get "src" = some v →
      kafkaProcessEvent c g m = (createEventNode g (unknownDefaultEventProps o)).1) := by
  refine ⟨?_, ?_, ?_, ?_⟩
  · intro c g ev
    exact storeInGraph_event_mem c g ev
  · intro c g ev v hok hv
    have hst : storeInGraphProcess c g (.vObj ev)
        = processEntities c (createEventNode g (pipelineEventProps ev)).1 ev
            (createEventNode g (pipelineEventProps ev)).2 := rfl
    rw [hst]
    unfold processEntities
    rw [hv, hok]
    simp only [entityWrite_fail]
  · intro c g ev so dv hok1 hok2 hs hd
    have hst : storeInGraphProcess c g (.vObj ev)
        = processEntities c (createEventNode g (pipelineEventProps ev)).1 ev
            (createEventNode g (pipelineEventProps ev)).2 := rfl
    rw [hst]
    unfold processEntities
    rw [hs, hd, hok1, hok2]
    simp only [entityWrite_ok, entityWrite_fail]
  · intro c g m o v hm hok hv
    have hk : kafkaProcessEvent c g m = storeOcsfEventUnknownDefaults c g o := by
      unfold kafkaProcessEvent
      rw [hm]
    rw [hk]
    unfold storeOcsfEventUnknownDefaults
    rw [hv, hok]
    simp only [entityWrite_fail]

/-- Witness for C5: concrete instances of all four parts, using the
src-and-dst event and the failing-src and failing-dst contexts. -/
theorem entity_write_failure_policy_witness :
    ((⟨Graph.empty.nextId, "Event", (pipelineEventProps evSD).dropNull⟩ : GNode)
      ∈ (storeInGraphProcess ctxSrcFail Graph.empty (.vObj evSD)).nodes) ∧
    (storeInGraphProcess ctxSrcFail Graph.empty (.vObj evSD)
      = (createEventNode Graph.empty (pipelineEventProps evSD)).1) ∧
    (storeInGraphProcess ⟨0, exVersion, true, false, true⟩ Graph.empty (.vObj evSD)
      = mergeEntityAndLink (createEventNode Graph.empty (pipelineEventProps evSD)).1
          (pyStr ((Obj.ofList [("type", .vStr "IP"), ("id", .vStr "s1")]).getD "type"
            (.vStr "Unknown")))
          (resolveIdentityKey (0 : Nat) (Obj.ofList [("type", .vStr "IP"), ("id", .vStr "s1")]))
          (Obj.ofList [("type", .vStr "IP"), ("id", .vStr "s1")]).withoutIdType
          (createEventNode Graph.empty (pipelineEventProps evSD)).2 "GENERATED" true) ∧
    (kafkaProcessEvent ctxSrcFail Graph.empty (wrapOcsf evSD)
      = (createEventNode Graph.empty (unknownDefaultEventProps evSD)).1) :=
  ⟨entity_write_failure_policy.1 ctxSrcFail Graph.empty evSD,
   entity_write_failure_policy.2.1 ctxSrcFail Graph.empty evSD
     (.vObj (Obj.ofList [("type", .vStr "IP"), ("id", .vStr "s1")])) rfl (by decide),
   entity_write_failure_policy.2.2.1 ⟨0, exVersion, true, false, true⟩ Graph.empty evSD
     (Obj.ofList [("type", .vStr "IP"), ("id", .vStr "s1")])
     (.vObj (Obj.ofList [("type", .vStr "Host"), ("id", .vStr "h1")])) rfl rfl
     (by decide) (by decide),
   entity_write_failure_policy.2.2.2 ctxSrcFail Graph.empty (wrapOcsf evSD) evSD
     (.vObj (Obj.ofList [("type", .vStr "IP"), ("id", .vStr "s1")])) (by decide) rfl
     (by decide)⟩

/-- Counterexample for C5: with the store rejecting only the src write,
the dst fragment of the same event is never written either: the final
graph has the durable event node but no Host entity, although the dst
write itself would have succeeded. -/
theorem entity_write_failure_counterexample :
    countLabel (storeInGraphProcess ctxSrcFail Graph.empty (.vObj evSD)) "Event" = 1 ∧
    (storeInGraphProcess ctxSrcFail Graph.empty (.vObj evSD)).findEntity "Host"
      (.vStr "h1") = none ∧
    (storeInGraphProcess ctxSrcFail Graph.empty (.vObj evSD)).findEntity "IP"
      (.vStr "s1") = none := by
  decide

/-- C6: writing the same canonical event twice produces two distinct
event nodes, never one: the event-node write is an unconditional create
with no deduplication, on the queue-consumer path and on the pipeline
path. Starting from any well-formed graph, both runs add a fresh Event
node carrying the event properties, and the two nodes are distinct. -/
theorem event_append_only :
    (∀ (c : Ctx) (g : Graph) (m : Obj) (o : Obj),
      kafkaMappedEvent c m = some (.vObj o) → g.WF →
      ∃ n1 n2 : GNode,
        n1 ∈ (kafkaProcessEvent c (kafkaProcessEvent c g m) m).nodes ∧
        n2 ∈ (kafkaProcessEvent c (kafkaProcessEvent c g m) m).nodes ∧
        n1.label = "Event" ∧ n2.label = "Event" ∧
        n1.props = (unknownDefaultEventProps o).dropNull ∧
        n2.props = (unknownDefaultEventProps o).dropNull ∧
        ¬ n1 ∈ g.nodes ∧ ¬ n2 ∈ g.nodes ∧ n1 ≠ n2) ∧
    (∀ (c : Ctx) (g : Graph) (ev : Obj), g.WF →
      ∃ n1 n2 : GNode,
        n1 ∈ (storeInGraphProcess c (storeInGraphProcess c g (.vObj ev)) (.vObj ev)).nodes ∧
        n2 ∈ (storeInGraphProcess c (storeInGraphProcess c g (.vObj ev)) (.vObj ev)).nodes ∧
        n1.label = "Event" ∧ n2.label = "Event" ∧
        n1.props = (pipelineEventProps ev).dropNull ∧
        n2.props = (pipelineEventProps ev).dropNull ∧
        ¬ n1 ∈ g.nodes ∧ ¬ n2 ∈ g.nodes ∧ n1 ≠ n2) := by
  constructor
  · intro c g m o hm hwf
    have hk : ∀ g0 : Graph, kafkaProcessEvent c g0 m = storeOcsfEventUnknownDefaults c g0 o := by
      intro g0
      unfold kafkaProcessEvent
      rw [hm]
    have hnext : g.nextId + 1 ≤ (kafkaProcessEvent c g m).nextId := by
      rw [hk g]
      exact storeOcsf_nextId c g o
    refine ⟨⟨g.nextId, "Event", (unknownDefaultEventProps o).dropNull⟩,
      ⟨(kafkaProcessEvent c g m).nextId, "Event", (unknownDefaultEventProps o).dropNull⟩,
      ?_, ?_, rfl, rfl, rfl, rfl, ?_, ?_, ?_⟩
    · have h1 : (⟨g.nextId, "Event", (unknownDefaultEventProps o).dropNull⟩ : GNode)
          ∈ (kafkaProcessEvent c g m).nodes := by
        rw [hk g]
        exact storeOcsf_event_mem c g o
      have hext : (kafkaProcessEvent c g m).Extends
          (kafkaProcessEvent c (kafkaProcessEvent c g m) m) := by
        rw [hk (kafkaProcessEvent c g m)]
        exact storeOcsf_extends c _ o
      exact hext.1 _ h1
    · rw [hk (kafkaProcessEvent c g m)]
      exact storeOcsf_event_mem c _ o
    · intro hmem
      exact absurd (hwf _ hmem) (lt_irrefl _)
    · intro hmem
      have := hwf _ hmem
      simp only at this
      omega
    · intro heq
      have := congrArg GNode.nid heq
      simp only at this
      omega
  · intro c g ev hwf
    have hnext : g.nextId + 1 ≤ (storeInGraphProcess c g (.vObj ev)).nextId :=
      storeInGraph_nextId c g ev
    refine ⟨⟨g.nextId, "Event", (pipelineEventProps ev).dropNull⟩,
      ⟨(storeInGraphProcess c g (.vObj ev)).nextId, "Event",
        (pipelineEventProps ev).dropNull⟩,
      ?_, ?_, rfl, rfl, rfl, rfl, ?_, ?_, ?_⟩
    · exact (storeInGraph_extends c _ ev).1 _ (storeInGraph_event_mem c g ev)
    · exact storeInGraph_event_mem c _ ev
    · intro hmem
      exact absurd (hwf _ hmem) (lt_irrefl _)
    · intro hmem
      have := hwf _ hmem
      simp only at this
      omega
    · intro heq
      have := congrArg GNode.nid heq
      simp only at this
      omega

/-- Witness for C6: the example src event delivered twice on each path
starting from the empty graph. -/
theorem event_append_only_witness :
    (∃ n1 n2 : GNode,
      n1 ∈ (kafkaProcessEvent ctxA (kafkaProcessEvent ctxA Graph.empty msgA) msgA).nodes ∧
      n2 ∈ (kafkaProcessEvent ctxA (kafkaProcessEvent ctxA Graph.empty msgA) msgA).nodes ∧
      n1.label = "Event" ∧ n2.label = "Event" ∧
      n1.props = (unknownDefaultEventProps evA).dropNull ∧
      n2.props = (unknownDefaultEventProps evA).dropNull ∧
      ¬ n1 ∈ Graph.empty.nodes ∧ ¬ n2 ∈ Graph.empty.nodes ∧ n1 ≠ n2) ∧
    (∃ n1 n2 : GNode,
      n1 ∈ (storeInGraphProcess ctxA (storeInGraphProcess ctxA Graph.empty (.vObj evA))
        (.vObj evA)).nodes ∧
      n2 ∈ (storeInGraphProcess ctxA (storeInGraphProcess ctxA Graph.empty (.vObj evA))
        (.vObj evA)).nodes ∧
      n1.label = "Event" ∧ n2.label = "Event" ∧
      n1.props = (pipelineEventProps evA).dropNull ∧
      n2.props = (pipelineEventProps evA).dropNull ∧
      ¬ n1 ∈ Graph.empty.nodes ∧ ¬ n2 ∈ Graph.empty.nodes ∧ n1 ≠ n2) :=
  ⟨event_append_only.1 ctxA Graph.empty msgA evA (by decide)
    (by intro n h; exact absurd h (List.not_mem_nil n)),
   event_append_only.2 ctxA Graph.empty evA
    (by intro n h; exact absurd h (List.not_mem_nil n))⟩
